import Mathlib

/-!
Verification of the booking and availability lifecycle of the Tourism
repository (apps `bookings` and `tours`).

The embedding below translates the Python source into Lean:

* `TourAvailability` embeds `tours/models.py` (`TourAvailability`): the two
  fields that the booking logic reads and writes (`max_participants`,
  `booked_participants`) together with the read-only `available_spots`
  property.  Both fields are kept as `Option Int` because the Python code
  defends against `None` with `x or 0` / `is None` checks.
* `Booking` embeds `bookings/models.py` (`Booking`): the fields relevant to
  the capacity lifecycle (`number_of_participants`, `booking_status`).
  Reference-code generation in `Booking.save` is embedded separately as
  `booking_save_reference`.
* `create_booking_quick` embeds `bookings/views.py` lines 138-203; the
  capacity guard and the counter increment are identical (modulo messages)
  to the ones of `create_booking` lines 62-107, so the same definition
  settles claims about either create path.
* `cancel_booking` embeds `bookings/views.py` lines 206-235.
* `Booking.reserve_spots` / `Booking.release_spots` embed
  `bookings/models.py` lines 82-114, including the Python attribute
  semantics of the assignment to the read-only property `available_spots`
  (a `@property` with no setter raises `AttributeError` on assignment).
* The race model (`raceStep`, `runSched`) embeds the two database
  round-trips of one create call: the row read that populates the in-memory
  `availability` object, and the later `availability.save()` that writes
  back `local + num`; the capacity check runs in application code on the
  stale local copy (views lines 158-194).

Exceptions that the Python code catches around `availability.save()`
(`IntegrityError`, `TypeError`, `ValueError`) are modelled by an explicit
`saveFails` flag: when it is set, the counter write is lost and the view
emits a warning but still completes.
-/

set_option autoImplicit false

namespace Tourism

/-- Booking.BOOKING_STATUS from bookings/models.py lines 12-18. -/
inductive BookingStatus where
  | pending
  | confirmed
  | cancelled
  | completed
  | refunded
deriving DecidableEq, Repr

/-- TourAvailability from tours/models.py lines 280-334, restricted to the
two columns the booking logic touches.  `max_participants` and
`booked_participants` are kept optional because the source guards both
against `None`. -/
structure TourAvailability where
  max_participants : Option Int
  booked_participants : Option Int
deriving DecidableEq, Repr

/-- The read-only property `TourAvailability.available_spots`
(tours/models.py lines 316-334): `None` when `max_participants` is `None`,
otherwise `max(0, int(max_p) - int(booked or 0))`. -/
def TourAvailability.available_spots (a : TourAvailability) : Option Int :=
  match a.max_participants with
  | none => none
  | some max_p => some (max 0 (max_p - a.booked_participants.getD 0))

/-- Booking from bookings/models.py lines 9-77, restricted to the columns
the capacity lifecycle reads. -/
structure Booking where
  number_of_participants : Int
  booking_status : BookingStatus
deriving DecidableEq, Repr

/-- Participant-count normalisation shared by both create views
(views lines 63-68 and 149-154): `int(posted)` with default 1, parse
failures mapped to 1 (`posted = none`), and any value below 1 clamped
to 1. -/
def normalize_participants (posted : Option Int) : Int :=
  match posted with
  | none => 1
  | some n => if n < 1 then 1 else n

/-- The capacity guard of views line 76 and line 173:
`avail_spots is not None and isinstance(avail_spots, int) and
avail_spots < num`. -/
def capacity_insufficient (avail_spots : Option Int) (num : Int) : Bool :=
  match avail_spots with
  | some s => decide (s < num)
  | none => false

/-- Result of the create flow, as seen by the caller of
`create_booking_quick`: the redirect-with-error outcomes and the created
booking.  `counterWarning` records the staff-reconciliation warning emitted
when `availability.save()` raised one of the caught exceptions. -/
inductive QuickCreateOutcome where
  | noAvailability
  | insufficientCapacity
  | created (booking : Booking) (counterWarning : Bool)
deriving DecidableEq, Repr

/-- create_booking_quick from bookings/views.py lines 138-203 (the guard
and counter increment are the same as create_booking lines 62-107).
Returns the outcome and the availability row as persisted afterwards. -/
def create_booking_quick (availability : Option TourAvailability)
    (posted : Option Int) (counterSaveFails : Bool) :
    QuickCreateOutcome × Option TourAvailability :=
  let num := normalize_participants posted
  match availability with
  | none => (.noAvailability, none)
  | some a =>
    if capacity_insufficient a.available_spots num then
      (.insufficientCapacity, some a)
    else
      let booking : Booking :=
        { number_of_participants := num, booking_status := .pending }
      if counterSaveFails then
        (.created booking true, some a)
      else
        let newBooked := a.booked_participants.getD 0 + num
        (.created booking false,
          some { a with booked_participants := some newBooked })

/-- Result of cancel_booking, as seen by the caller.  `notFound` is the 404
raised by `get_object_or_404(..., booking_status__in=[pending, confirmed])`
when the booking is not in a cancellable status. -/
inductive CancelOutcome where
  | notFound
  | success (counterWarning : Bool)
deriving DecidableEq, Repr

/-- cancel_booking from bookings/views.py lines 206-235 (POST branch).
A booking outside `pending`/`confirmed` never reaches the handler (404).
The status is set to `cancelled`; only when the previous status was
`confirmed` and an availability row exists is the counter decremented,
clamped at zero.  A caught save exception leaves the counter unchanged and
emits a warning; the cancellation still succeeds. -/
def cancel_booking (b : Booking) (availability : Option TourAvailability)
    (saveFails : Bool) : CancelOutcome × Booking × Option TourAvailability :=
  if b.booking_status = .pending ∨ b.booking_status = .confirmed then
    let b2 : Booking := { b with booking_status := .cancelled }
    if b.booking_status = .confirmed then
      match availability with
      | some a =>
        if saveFails then
          (.success true, b2, some a)
        else
          let newBooked :=
            max 0 (a.booked_participants.getD 0 - b.number_of_participants)
          (.success false, b2,
            some { a with booked_participants := some newBooked })
      | none => (.success false, b2, none)
    else
      (.success false, b2, availability)
  else
    (.notFound, b, availability)

/-- The Python exception raised when code assigns to an attribute that
cannot be set, such as a `@property` that defines no setter. -/
inductive PyExc where
  | attributeError
deriving DecidableEq, Repr

/-- Booking.reserve_spots from bookings/models.py lines 82-100.  When the
window is bounded (`available_spots` is an `int`) and holds enough spots,
line 95 assigns to `availability.available_spots`; `available_spots` is a
`@property` with no setter (tours/models.py lines 316-334), so the
assignment raises `AttributeError` and the enclosing `transaction.atomic`
block aborts before `availability.save()` runs.  Only the unbounded branch
reaches the `booked_participants` update and the save. -/
def Booking.reserve_spots (b : Booking)
    (availability : Option TourAvailability) :
    Except PyExc (Bool × Option TourAvailability) :=
  match availability with
  | none => .ok (false, none)
  | some a =>
    match a.available_spots with
    | some s =>
      if s < b.number_of_participants then .ok (false, some a)
      else .error .attributeError
    | none =>
      let newBooked := a.booked_participants.getD 0 + b.number_of_participants
      .ok (true, some { a with booked_participants := some newBooked })

/-- Booking.release_spots from bookings/models.py lines 102-114.  The
`booked_participants` clamp of line 110 happens in memory first; when the
window is bounded, line 112 then assigns to the read-only property
`available_spots`, raising `AttributeError` before `availability.save()`,
so nothing is persisted (the transaction aborts). -/
def Booking.release_spots (b : Booking)
    (availability : Option TourAvailability) :
    Except PyExc (Bool × Option TourAvailability) :=
  match availability with
  | none => .ok (false, none)
  | some a =>
    let newBooked :=
      max 0 (a.booked_participants.getD 0 - b.number_of_participants)
    let a2 : TourAvailability :=
      { a with booked_participants := some newBooked }
    match a2.available_spots with
    | some _ => .error .attributeError
    | none => .ok (true, some a2)

/-- Reference generation of Booking.save, bookings/models.py line 76:
`f"TZ{uuid.uuid4().hex[:8].upper()}"`; the randomness is passed in as the
already-formatted 8-character hex block. -/
def generated_reference (hex8 : String) : String :=
  "TZ" ++ hex8

/-- Result of `Booking.save` restricted to the reference column: either the
reference that was persisted, or the `IntegrityError` the database raises
for a duplicate of the `unique=True` column `booking_reference`
(bookings/models.py line 21). -/
inductive RefSaveResult where
  | ok (ref : String)
  | integrityError
deriving DecidableEq, Repr

/-- Booking.save from bookings/models.py lines 73-77, restricted to the
reference column.  `entropy` is the stream of uuid hex blocks available to
the generator; the source consumes exactly one (there is no retry loop), so
a freshly generated reference that collides with an existing row makes the
insert fail with `IntegrityError`. -/
def booking_save_reference (existingRefs : List String) (current : String)
    (entropy : List String) : RefSaveResult :=
  let ref :=
    if current = "" then generated_reference (entropy.headD "") else current
  if ref ∈ existingRefs then .integrityError else .ok ref

/-- BookingExtra from bookings/models.py lines 197-219.  Prices are exact
decimals in the source (`DecimalField`), embedded as rationals. -/
structure BookingExtra where
  quantity : Int
  unit_price : Rat
  total_price : Rat
deriving DecidableEq, Repr

/-- BookingExtra.save from bookings/models.py lines 217-219:
`self.total_price = self.quantity * self.unit_price` before persisting. -/
def BookingExtra.save (e : BookingExtra) : BookingExtra :=
  { e with total_price := (e.quantity : Rat) * e.unit_price }

/-! ### Serial executions against one availability window

One request of the booking views, as applied to a single availability row.
`SerialOp` carries the per-request inputs; the counter effects are those of
`create_booking_quick` and `cancel_booking` above. -/

/-- One serialised request against a window: a create request with its
posted participant count, or a cancel request for a given booking.  The
`Bool` is the save-exception flag of the corresponding view. -/
inductive SerialOp where
  | createReq (posted : Option Int) (counterSaveFails : Bool)
  | cancelReq (b : Booking) (saveFails : Bool)
deriving Repr

/-- Requests the views can actually issue: every persisted booking has
`number_of_participants >= 1` (`MinValueValidator(1)` on the model, and
both create views normalise the count to at least 1), so a cancel request
never carries a negative count. -/
def wfOp : SerialOp → Prop
  | .createReq _ _ => True
  | .cancelReq b _ => 0 ≤ b.number_of_participants

/-- The availability row after one request has been handled. -/
def applyOp (w : TourAvailability) (op : SerialOp) : TourAvailability :=
  match op with
  | .createReq posted sf =>
    match (create_booking_quick (some w) posted sf).2 with
    | some w2 => w2
    | none => w
  | .cancelReq b sf =>
    match (cancel_booking b (some w) sf).2.2 with
    | some w2 => w2
    | none => w

/-! ### Interleaved create calls (race model)

One create call touches the database twice: it first reads the
availability row into memory (`get_object_or_404` / the queryset in views
lines 156-161), and later writes `booked_participants = local + num` back
(`availability.save()`, line 194).  The capacity comparison of line 173
runs in application code on the stale in-memory copy, with no row lock and
no atomic conditional update, so a second request can run between the read
and the write. -/

/-- Progress of one create request: before its row read, after its row read
(holding the stale copy of `booked_participants`), or finished with its
outcome. -/
inductive TState where
  | start
  | readDone (localBooked : Int)
  | done (success : Bool)
deriving DecidableEq, Repr

/-- One concurrent create request: its requested participant count and its
progress. -/
structure RaceThread where
  num : Int
  st : TState
deriving DecidableEq, Repr

/-- One atomic database interaction of a create request against a window
with capacity `cap`: the row read, or the check-and-write (the check uses
the stale local copy, exactly as views lines 164-194 do). -/
def raceStep (cap : Option Int) (t : RaceThread) (db : Int) :
    RaceThread × Int :=
  match t.st with
  | .start => ({ t with st := .readDone db }, db)
  | .readDone localBooked =>
    let avail_spots : Option Int := cap.map (fun c => max 0 (c - localBooked))
    if capacity_insufficient avail_spots t.num then
      ({ t with st := .done false }, db)
    else
      ({ t with st := .done true }, localBooked + t.num)
  | .done _ => (t, db)

/-- Run a schedule (a list of thread indices) over the thread pool and the
shared `booked_participants` cell. -/
def runSched (cap : Option Int) :
    List Nat → List RaceThread × Int → List RaceThread × Int
  | [], s => s
  | i :: rest, (ts, db) =>
    match ts[i]? with
    | none => runSched cap rest (ts, db)
    | some t =>
      let (t2, db2) := raceStep cap t db
      runSched cap rest (ts.set i t2, db2)

/-! ## Helper lemmas -/

/-- Both create views clamp the requested participant count to at least 1. -/
theorem one_le_normalize (posted : Option Int) :
    1 ≤ normalize_participants posted := by
  cases posted with
  | none => simp [normalize_participants]
  | some n =>
    simp only [normalize_participants]
    split <;> omega

/-- On a bounded window the `available_spots` property is the clamped
difference of capacity and the reserved counter. -/
theorem available_spots_of_max (a : TourAvailability) (m : Int)
    (hm : a.max_participants = some m) :
    a.available_spots = some (max 0 (m - a.booked_participants.getD 0)) := by
  simp [TourAvailability.available_spots, hm]

/-- One handled request keeps the capacity bound of the window: the
capacity column is untouched and the reserved counter stays inside
`[0, C]`. -/
theorem applyOp_preserves (w : TourAvailability) (op : SerialOp) (C : Int)
    (hC : w.max_participants = some C) (hwf : wfOp op)
    (h0 : 0 ≤ w.booked_participants.getD 0)
    (h1 : w.booked_participants.getD 0 ≤ C) :
    (applyOp w op).max_participants = some C ∧
    0 ≤ (applyOp w op).booked_participants.getD 0 ∧
    (applyOp w op).booked_participants.getD 0 ≤ C := by
  cases op with
  | createReq posted sf =>
    have hn := one_le_normalize posted
    have hs := available_spots_of_max w C hC
    by_cases hins :
        capacity_insufficient w.available_spots (normalize_participants posted) = true
    · simp [applyOp, create_booking_quick, hins, hC, h0, h1]
    · have hle : normalize_participants posted
          ≤ max 0 (C - w.booked_participants.getD 0) := by
        rw [hs] at hins
        simp [capacity_insufficient] at hins
        omega
      cases sf with
      | true => simp [applyOp, create_booking_quick, hins, hC, h0, h1]
      | false =>
        simp [applyOp, create_booking_quick, hins, hC]
        omega
  | cancelReq b sf =>
    have hb : (0:Int) ≤ b.number_of_participants := hwf
    by_cases hcanc :
        b.booking_status = .pending ∨ b.booking_status = .confirmed
    · by_cases hconf : b.booking_status = .confirmed
      · cases sf with
        | true => simp [applyOp, cancel_booking, hcanc, hconf, hC, h0, h1]
        | false =>
          simp [applyOp, cancel_booking, hcanc, hconf, hC]
          omega
      · rcases hcanc with hp | hc
        · simp [applyOp, cancel_booking, hp, hconf, hC, h0, h1]
        · exact absurd hc hconf
    · simp [applyOp, cancel_booking, hcanc, hC, h0, h1]

/-! ## Claim theorems -/

/-- C1: the claim states that a successful cancel of a booking in status
`pending` or `confirmed` releases the window counter by the booking count,
regardless of which of the two statuses it left.  The code releases only
when the previous status was `confirmed` (views line 223), while both
create paths already increment the counter for `pending` bookings; this
theorem evaluates the cancel view at the failing input: a pending booking
for 4 participants whose window holds `booked_participants = 4` is
cancelled successfully, yet the counter stays 4 instead of dropping
to 0. -/
theorem cancel_pending_booking_does_not_release_spots :
    cancel_booking ⟨4, .pending⟩ (some ⟨some 10, some 4⟩) false
      = (.success false, ⟨4, .cancelled⟩, some ⟨some 10, some 4⟩) := rfl

/-- C2: for every bounded availability window and every serialised sequence
of create and cancel requests against it, the reserved counter satisfies
`0 <= booked_participants <= max_participants` after each request (any
point of the execution being the fold over a prefix of the request
list). -/
theorem serial_ops_preserve_capacity_invariant
    (ops : List SerialOp) (w : TourAvailability) (C : Int)
    (hC : w.max_participants = some C)
    (hwf : ∀ op ∈ ops, wfOp op)
    (h0 : 0 ≤ w.booked_participants.getD 0)
    (h1 : w.booked_participants.getD 0 ≤ C) :
    0 ≤ (ops.foldl applyOp w).booked_participants.getD 0 ∧
    (ops.foldl applyOp w).booked_participants.getD 0 ≤ C := by
  induction ops generalizing w with
  | nil => exact ⟨h0, h1⟩
  | cons op rest ih =>
    have hop : wfOp op := hwf op (List.mem_cons_self op rest)
    have hrest : ∀ o ∈ rest, wfOp o := fun o ho => hwf o (List.mem_cons_of_mem _ ho)
    obtain ⟨hm2, h02, h12⟩ := applyOp_preserves w op C hC hop h0 h1
    simpa using ih (applyOp w op) hm2 hrest h02 h12

/-- Concrete run for the capacity invariant: a window of capacity 10 after
a create for 4 and a cancel of that confirmed booking. -/
theorem serial_ops_preserve_capacity_invariant_witness :
    0 ≤ (List.foldl applyOp ⟨some 10, some 0⟩
        [SerialOp.createReq (some 4) false,
         SerialOp.cancelReq ⟨4, .confirmed⟩ false]).booked_participants.getD 0 ∧
    (List.foldl applyOp ⟨some 10, some 0⟩
        [SerialOp.createReq (some 4) false,
         SerialOp.cancelReq ⟨4, .confirmed⟩ false]).booked_participants.getD 0 ≤ 10 :=
  serial_ops_preserve_capacity_invariant _ _ 10 rfl
    (by
      intro op hop
      simp only [List.mem_cons, List.not_mem_nil, or_false] at hop
      rcases hop with rfl | rfl
      · trivial
      · show (0:Int) ≤ 4
        decide)
    (by decide) (by decide)

/-- C3: a create request against a window with a known bounded remaining
capacity strictly below the requested participant count fails with the
insufficient-capacity outcome and performs no mutation: no booking appears
in the outcome and the window row is returned unchanged. -/
theorem insufficient_capacity_rejects_without_mutation
    (a : TourAvailability) (n s : Int) (sf : Bool)
    (hs : a.available_spots = some s) (hn : 1 ≤ n) (hlt : s < n) :
    create_booking_quick (some a) (some n) sf
      = (.insufficientCapacity, some a) := by
  have hnlt : ¬ n < 1 := by omega
  have hnum : normalize_participants (some n) = n := by
    simp [normalize_participants, hnlt]
  simp [create_booking_quick, hnum, hs, capacity_insufficient, hlt]

/-- Concrete insufficient-capacity rejection: 6 spots remain and 7 are
requested; nothing changes. -/
theorem insufficient_capacity_rejects_without_mutation_witness :
    TourAvailability.available_spots ⟨some 10, some 4⟩ = some 6 ∧
    (1:Int) ≤ 7 ∧ (6:Int) < 7 ∧
    create_booking_quick (some ⟨some 10, some 4⟩) (some 7) false
      = (.insufficientCapacity, some ⟨some 10, some 4⟩) :=
  ⟨rfl, by decide, by decide,
   insufficient_capacity_rejects_without_mutation ⟨some 10, some 4⟩ 7 6 false
     rfl (by decide) (by decide)⟩

/-- C4: the claim states that a second cancel after a successful one is
rejected and that the counter is decremented exactly once across the two
calls.  The rejection half holds (the already-cancelled booking no longer
matches the `booking_status__in` filter, so the second call gets a 404),
but for a booking cancelled out of `pending` the counter is decremented
zero times, not once: this theorem evaluates both calls at the failing
input (pending booking for 4, counter 4) and shows the counter still at 4
after the pair. -/
theorem second_cancel_rejected_but_pending_never_released :
    (cancel_booking ⟨4, .pending⟩ (some ⟨some 10, some 4⟩) false).1
      = .success false ∧
    cancel_booking
        (cancel_booking ⟨4, .pending⟩ (some ⟨some 10, some 4⟩) false).2.1
        (cancel_booking ⟨4, .pending⟩ (some ⟨some 10, some 4⟩) false).2.2 false
      = (.notFound, ⟨4, .cancelled⟩, some ⟨some 10, some 4⟩) :=
  ⟨rfl, rfl⟩

/-- C5: the claim states that K concurrent creates against capacity C admit
exactly `C / count` successes because the capacity check and the counter
update cannot be interleaved.  The code reads the row, checks in
application memory and writes back without any lock or conditional update,
so the two database interactions of each request can interleave: this
theorem runs the schedule read-read-write-write for two creates of 1
participant against capacity 1 starting from counter 0, and both requests
finish successfully (two bookings for one spot) while the stored counter
ends at 1. -/
theorem interleaved_creates_overbook_bounded_window :
    runSched (some 1) [0, 1, 0, 1] ([⟨1, .start⟩, ⟨1, .start⟩], 0)
      = ([⟨1, .done true⟩, ⟨1, .done true⟩], 1) := rfl

/-- C6: the release performed by the cancellation view sets the counter to
`max(0, reserved - count)`, clamped at zero instead of going negative, and
the cancellation succeeds from the caller point of view in every case: for
any save-exception flag the outcome is a success, and on the normal path
the persisted counter is exactly the clamped value, which is never
negative. -/
theorem cancel_release_clamps_and_always_succeeds
    (b : Booking) (a : TourAvailability) (sf : Bool)
    (h : b.booking_status = .confirmed) :
    (∃ warned, (cancel_booking b (some a) sf).1 = .success warned) ∧
    (cancel_booking b (some a) false).2.2
      = some { a with
          booked_participants :=
            some (max 0 (a.booked_participants.getD 0 - b.number_of_participants)) } ∧
    0 ≤ max 0 (a.booked_participants.getD 0 - b.number_of_participants) := by
  refine ⟨?_, ?_, le_max_left 0 _⟩
  · cases sf with
    | true => exact ⟨true, by simp [cancel_booking, h]⟩
    | false => exact ⟨false, by simp [cancel_booking, h]⟩
  · simp [cancel_booking, h]

/-- Concrete underflowing release: cancelling a confirmed booking for 5
participants when the counter holds 3 clamps the counter to 0 and still
succeeds. -/
theorem cancel_release_clamps_and_always_succeeds_witness :
    (∃ warned, (cancel_booking ⟨5, .confirmed⟩ (some ⟨some 10, some 3⟩) false).1
        = .success warned) ∧
    (cancel_booking ⟨5, .confirmed⟩ (some ⟨some 10, some 3⟩) false).2.2
        = some ⟨some 10, some 0⟩ ∧
    (0:Int) ≤ max 0 (3 - 5) :=
  cancel_release_clamps_and_always_succeeds ⟨5, .confirmed⟩ ⟨some 10, some 3⟩
    false rfl

/-- C7: for every BookingExtra with `quantity >= 1` and `unit_price >= 0`,
after every save the persisted `total_price` is exactly
`quantity * unit_price`, and this still holds after updating either factor
and saving again. -/
theorem booking_extra_total_price_always_product (e : BookingExtra)
    (hq : 1 ≤ e.quantity) (hp : 0 ≤ e.unit_price) :
    (BookingExtra.save e).total_price = (e.quantity : Rat) * e.unit_price ∧
    ∀ q2 p2,
      (BookingExtra.save { e with quantity := q2, unit_price := p2 }).total_price
        = (q2 : Rat) * p2 :=
  ⟨rfl, fun _ _ => rfl⟩

/-- Concrete extra: quantity 3 at 12.50 gives 37.50; updating quantity to 5
on the saved row and saving again gives 62.50. -/
theorem booking_extra_total_price_always_product_witness :
    (1:Int) ≤ 3 ∧ (0:Rat) ≤ 25/2 ∧
    (BookingExtra.save ⟨3, 25/2, 0⟩).total_price = ((3:Int) : Rat) * (25/2) ∧
    (BookingExtra.save ⟨5, 25/2, 75/2⟩).total_price = ((5:Int) : Rat) * (25/2) :=
  ⟨by norm_num, by norm_num,
   (booking_extra_total_price_always_product ⟨3, 25/2, 0⟩ (by norm_num)
     (by norm_num)).1,
   (booking_extra_total_price_always_product ⟨3, 25/2, 75/2⟩ (by norm_num)
     (by norm_num)).2 5 (25/2)⟩

/-- C8 counterexample: the claim states that a collision of the generated
reference is retried rather than failing the create.  The save consumes a
single uuid value and has no retry loop: with one existing row holding
TZAAAA0001 and an entropy stream whose first block collides, the save
fails with the integrity error even though the very next block would have
produced the fresh reference TZBBBB0002. -/
theorem reference_collision_not_retried_counterexample :
    booking_save_reference ["TZAAAA0001"] "" ["AAAA0001", "BBBB0002"]
      = .integrityError ∧
    booking_save_reference ["TZAAAA0001"] "" ["BBBB0002"] = .ok "TZBBBB0002" :=
  ⟨rfl, rfl⟩

/-- C8 amended: every persisted booking reference is unique across all
bookings (the uniqueness constraint refuses a duplicate), and a collision
of the generated reference is not retried: the save fails with the
integrity error. -/
theorem reference_unique_and_collision_errors
    (ex : List String) (cur : String) (ent : List String) :
    (∀ r, booking_save_reference ex cur ent = .ok r → r ∉ ex) ∧
    (cur = "" → generated_reference (ent.headD "") ∈ ex →
      booking_save_reference ex cur ent = .integrityError) := by
  constructor
  · intro r h hmem
    unfold booking_save_reference at h
    by_cases hin : (if cur = "" then generated_reference (ent.headD "") else cur) ∈ ex
    · rw [if_pos hin] at h
      cases h
    · rw [if_neg hin] at h
      cases h
      exact hin hmem
  · intro hcur hgen
    rw [List.headD_eq_head?] at hgen
    simp [booking_save_reference, hcur, hgen]

/-- Concrete reference saves: a colliding generation errors out, a fresh
one persists a reference absent from the existing rows. -/
theorem reference_unique_and_collision_errors_witness :
    booking_save_reference ["TZAB"] "" ["AB"] = .integrityError ∧
    "TZCD" ∉ ["TZAB"] :=
  ⟨(reference_unique_and_collision_errors ["TZAB"] "" ["AB"]).2 rfl (by decide),
   (reference_unique_and_collision_errors ["TZAB"] "" ["CD"]).1 "TZCD" (by decide)⟩

/-- C9 counterexample: the claim states that a non-positive participant
count fails with a validation error and creates nothing.  The view instead
normalises the count: a posted count of 0 against a window with 10 free
spots succeeds, creates a pending booking for 1 participant and increments
the counter to 1. -/
theorem nonpositive_count_creates_booking_counterexample :
    create_booking_quick (some ⟨some 10, some 0⟩) (some 0) false
      = (.created ⟨1, .pending⟩ false, some ⟨some 10, some 1⟩) := rfl

/-- C9 amended: a non-positive participant count is not rejected but
normalised to 1 — the request behaves exactly like a request for one
participant — and every booking the view creates has a participant count of
at least 1, so no booking is ever persisted with the invalid count. -/
theorem participant_count_normalized_to_one
    (av : Option TourAvailability) (n : Int) (sf : Bool) (hn : n < 1) :
    create_booking_quick av (some n) sf = create_booking_quick av (some 1) sf ∧
    ∀ posted b warn w2,
      create_booking_quick av posted sf = (.created b warn, w2) →
      1 ≤ b.number_of_participants := by
  constructor
  · have hnorm : normalize_participants (some n) = normalize_participants (some 1) := by
      simp [normalize_participants, hn]
    unfold create_booking_quick
    rw [hnorm]
  · intro posted b warn w2 h
    have hnum := one_le_normalize posted
    unfold create_booking_quick at h
    cases av with
    | none => simp at h
    | some a =>
      by_cases hins :
          capacity_insufficient a.available_spots (normalize_participants posted) = true
      · simp [hins] at h
      · cases sf with
        | true =>
          simp [hins] at h
          obtain ⟨⟨hb, -⟩, -⟩ := h
          rw [← hb]
          exact hnum
        | false =>
          simp [hins] at h
          obtain ⟨⟨hb, -⟩, -⟩ := h
          rw [← hb]
          exact hnum

/-- Concrete normalisation: a posted count of 0 behaves like a count of 1
against a window with 10 free spots, and any created booking carries at
least one participant. -/
theorem participant_count_normalized_to_one_witness :
    (0:Int) < 1 ∧
    (create_booking_quick (some ⟨some 10, some 0⟩) (some 0) false
        = create_booking_quick (some ⟨some 10, some 0⟩) (some 1) false ∧
      ∀ posted b warn w2,
        create_booking_quick (some ⟨some 10, some 0⟩) posted false
          = (.created b warn, w2) →
        1 ≤ b.number_of_participants) :=
  ⟨by decide, participant_count_normalized_to_one (some ⟨some 10, some 0⟩) 0
    false (by decide)⟩

/-- C10: on a bounded window (capacity column set) with enough remaining
spots for the booking, `Booking.reserve_spots` raises `AttributeError` by
assigning to the read-only `available_spots` property instead of returning
`True`, and `Booking.release_spots` likewise raises on every bounded
window; neither helper completes its counter update there. -/
theorem reserve_and_release_spots_raise_attribute_error
    (b b2 : Booking) (a a2 : TourAvailability) (m m2 : Int)
    (hm : a.max_participants = some m)
    (hn : b.number_of_participants ≤ max 0 (m - a.booked_participants.getD 0))
    (hm2 : a2.max_participants = some m2) :
    Booking.reserve_spots b (some a) = .error .attributeError ∧
    Booking.release_spots b2 (some a2) = .error .attributeError := by
  constructor
  · have hs := available_spots_of_max a m hm
    have hnlt :
        ¬ (max 0 (m - a.booked_participants.getD 0) < b.number_of_participants) :=
      not_lt.mpr hn
    simp [Booking.reserve_spots, hs, hnlt]
  · simp [Booking.release_spots, TourAvailability.available_spots, hm2]

/-- Concrete helper failures: reserving 2 of 10 free spots raises, and
releasing 3 on a bounded window with capacity 5 raises. -/
theorem reserve_and_release_spots_raise_attribute_error_witness :
    Booking.reserve_spots ⟨2, .pending⟩ (some ⟨some 10, some 0⟩)
      = .error .attributeError ∧
    Booking.release_spots ⟨3, .confirmed⟩ (some ⟨some 5, some 1⟩)
      = .error .attributeError :=
  reserve_and_release_spots_raise_attribute_error ⟨2, .pending⟩ ⟨3, .confirmed⟩
    ⟨some 10, some 0⟩ ⟨some 5, some 1⟩ 10 5 rfl (by decide) rfl

end Tourism
